import Mathlib

/-!
Shallow embedding of `src/python/hvac_ircontrol/mitsubishi.py`
(HVAC-IR-Control, Python port for RPI3): the Mitsubishi IR command
frame builder and the pulse-timing profile handed to the transmitter.

Mode "classes" of the source are namespaces of `Nat` constants; the
private method `__send_command` becomes `sendCommandCore`, returning
`Option (List Nat)`: `none` models the `TypeError` raised when
`ClimateMode.climate2` returns `None` for an unmapped climate mode
(the `None | int` expression raises before `sender.send_data` runs).
The current time, read in the source via `datetime.today()`, is an
explicit `Time` argument (the time-of-day provider collaborator).
-/

namespace HVACIR

namespace PowerMode

def PowerOff : Nat := 0b00000000

def PowerOn : Nat := 0b00100000

end PowerMode

namespace ClimateMode

def Hot : Nat := 0b00001000

def Cold : Nat := 0b00011000

def Dry : Nat := 0b00010000

def Auto : Nat := 0b00100000

/-- Private literal `__Hot2` of the source (its own comment claims 0x00). -/
def Hot2 : Nat := 0b00001000

/-- Private literal `__Cold2` of the source (its own comment claims 0x06). -/
def Cold2 : Nat := 0b00011000

/-- Private literal `__Dry2` of the source (its own comment claims 0x02). -/
def Dry2 : Nat := 0b00010000

/-- Private literal `__Auto2` of the source (its own comment claims 0x00). -/
def Auto2 : Nat := 0b00100000

/-- Classmethod `climate2` of `ClimateMode`: falls off the end
(returns `None`) for an unmapped climate mode. -/
def climate2 (climate_mode : Nat) : Option Nat :=
  if climate_mode = Hot then some Hot2
  else if climate_mode = Cold then some Cold2
  else if climate_mode = Dry then some Dry2
  else if climate_mode = Auto then some Auto2
  else none

end ClimateMode

namespace ISeeMode

def NotAvailable : Nat := 0b00000000

def ISeeOff : Nat := 0b00000000

def ISeeOn : Nat := 0b01000000

end ISeeMode

namespace VanneHorizontalMode

def NotAvailable : Nat := 0b00000000

def LeftEnd : Nat := 0b01000000

def Left : Nat := 0b01001000

def Middle : Nat := 0b01010000

def Right : Nat := 0b01011000

def RightEnd : Nat := 0b01100000

def Swing : Nat := 0b01101000

end VanneHorizontalMode

namespace FanMode

def Speed1 : Nat := 0b00000001

def Speed2 : Nat := 0b00000010

def Speed3 : Nat := 0b00000011

def Speed4 : Nat := 0b00000100

def Auto : Nat := 0b10000000

def Silent : Nat := 0b00000101

end FanMode

namespace VanneVerticalMode

def Auto : Nat := 0b01000000

def WvH1 : Nat := 0b01001000

def WvH2 : Nat := 0b01010000

def WvH3 : Nat := 0b01011000

def WvH4 : Nat := 0b01100000

def WvH5 : Nat := 0b01101000

def Swing : Nat := 0b01111000

end VanneVerticalMode

namespace TimeControlMode

def NoTimeControl : Nat := 0b00000000

def ControlStart : Nat := 0b00000000

def ControlEnd : Nat := 0b00000000

def ControlBoth : Nat := 0b00000000

end TimeControlMode

namespace AreaMode

def NotAvailable : Nat := 0b00000000

def NotSet : Nat := 0b00000000

def Left : Nat := 0b00000000

def Right : Nat := 0b00000000

def Full : Nat := 0b00000000

end AreaMode

namespace Delay

def HdrMark : Nat := 3400

def HdrSpace : Nat := 1750

def BitMark : Nat := 450

def OneSpace : Nat := 1300

def ZeroSpace : Nat := 420

def RptMark : Nat := 440

def RptSpace : Nat := 17100

end Delay

namespace Index

def Header0 : Nat := 0

def Header1 : Nat := 1

def Header2 : Nat := 2

def Header3 : Nat := 3

def Header4 : Nat := 4

def Power : Nat := 5

def ClimateAndISee : Nat := 6

def Temperature : Nat := 7

def ClimateAndHorizontalVanne : Nat := 8

def FanAndVerticalVanne : Nat := 9

def Clock : Nat := 10

def EndTime : Nat := 11

def StartTime : Nat := 12

def TimeControlAndArea : Nat := 13

def Unused14 : Nat := 14

def Unused15 : Nat := 15

def Unused16 : Nat := 16

def CRC : Nat := 17

end Index

namespace Constants

def Frequency : Nat := 38000

def MinTemp : Nat := 16

def MaxTemp : Nat := 31

def MaxMask : Nat := 0xFF

def NbBytes : Nat := 18

def NbPackets : Nat := 2

end Constants

/-- A time of day, as delivered by the time-of-day provider or by the
optional `start_time` / `end_time` arguments (`datetime`-like values:
only `.hour` and `.minute` are read by the source). -/
structure Time where
  hour : Nat
  minute : Nat
deriving DecidableEq, Repr

/-- The settings `__send_command` receives besides `power_mode`. -/
structure Settings where
  climate_mode : Nat
  temperature : Int
  fan_mode : Nat
  vanne_vertical_mode : Nat
  vanne_horizontal_mode : Nat
  isee_mode : Nat
  area_mode : Nat
  start_time : Option Time
  end_time : Option Time
deriving DecidableEq, Repr

/-- The local template list literal of `__send_command`
("data array is a valid trame, only byte to be changed will be
updated"); it is constructed afresh inside each call. -/
def template : List Nat :=
  [0x23, 0xCB, 0x26, 0x01, 0x00, 0x20,
   0x08, 0x06, 0x30, 0x45, 0x67, 0x00,
   0x00, 0x00, 0x00, 0x00, 0x00, 0x1F]

/-- Computes `max(Constants.MinTemp, min(Constants.MaxTemp, temperature)) - 16`
over the integers exactly as in the source; the value lies in
`[0, 15]` so `Int.toNat` is lossless. -/
def temperatureByte (temperature : Int) : Nat :=
  (max (Constants.MinTemp : Int) (min (Constants.MaxTemp : Int) temperature) - 16).toNat

/-- Computes `0 if t is None else t.hour * (t.minute // 10)` (used for
both `end_time` and `start_time`). -/
def timeFieldByte : Option Time → Nat
  | none => 0
  | some t => t.hour * (t.minute / 10)

/-- The `time_control` selection chain of `__send_command`. -/
def timeControlOf (start_time end_time : Option Time) : Nat :=
  if end_time.isSome && start_time.isSome then TimeControlMode.ControlBoth
  else if end_time.isSome then TimeControlMode.ControlEnd
  else if start_time.isSome then TimeControlMode.ControlStart
  else TimeControlMode.NoTimeControl

/-- Method `Mitsubishi.__send_command`, up to the frame handed to
`sender.send_data`: builds the local template, overwrites the
setting positions, computes the CRC (`sum(data[:-1]) % (MaxMask+1)`),
and returns the finished frame. Returns `none` when
`ClimateMode.climate2` yields `None` (the source then raises a
`TypeError` on `None | vanne_horizontal_mode` before any frame is
handed to the transmitter). -/
def sendCommandCore (s : Settings) (now : Time) (power_mode : Nat) :
    Option (List Nat) :=
  match ClimateMode.climate2 s.climate_mode with
  | none => none
  | some c2 =>
    let data := template
    let data := data.set Index.Power power_mode
    let data := data.set Index.ClimateAndISee (s.climate_mode ||| s.isee_mode)
    let data := data.set Index.Temperature (temperatureByte s.temperature)
    let data := data.set Index.ClimateAndHorizontalVanne (c2 ||| s.vanne_horizontal_mode)
    let data := data.set Index.FanAndVerticalVanne (s.fan_mode ||| s.vanne_vertical_mode)
    let data := data.set Index.Clock (now.hour * (now.minute / 10))
    let data := data.set Index.EndTime (timeFieldByte s.end_time)
    let data := data.set Index.StartTime (timeFieldByte s.start_time)
    let data := data.set Index.TimeControlAndArea
      (timeControlOf s.start_time s.end_time ||| s.area_mode)
    let data := data.set Index.CRC ((data.take 17).sum % (Constants.MaxMask + 1))
    some data

/-- The settings `Mitsubishi.power_off` passes to `__send_command`
(note the horizontal vane is `Swing`, not `NotAvailable`). -/
def powerOffSettings : Settings :=
  ⟨ClimateMode.Auto, 21, FanMode.Auto, VanneVerticalMode.Auto,
   VanneHorizontalMode.Swing, ISeeMode.NotAvailable, AreaMode.NotAvailable,
   none, none⟩

/-- Method `Mitsubishi.power_off`: the frame it hands to the transmitter. -/
def power_off (now : Time) : Option (List Nat) :=
  sendCommandCore powerOffSettings now PowerMode.PowerOff

/-- The documented default values of `Mitsubishi.send_command`
(all parameters optional, horizontal vane defaults to `NotAvailable`). -/
def sendCommandDefaults : Settings :=
  ⟨ClimateMode.Auto, 21, FanMode.Auto, VanneVerticalMode.Auto,
   VanneHorizontalMode.NotAvailable, ISeeMode.NotAvailable, AreaMode.NotAvailable,
   none, none⟩

/-- Method `Mitsubishi.send_command`: the frame it hands to the
transmitter (always with `PowerMode.PowerOn`). -/
def send_command (s : Settings) (now : Time) : Option (List Nat) :=
  sendCommandCore s now PowerMode.PowerOn

/-- The timing-profile dictionary `__send_command` passes to
`ir_sender.IrSender` (field names as in the source dictionary). -/
structure TimingProfile where
  leading_pulse_duration : Nat
  leading_gap_duration : Nat
  one_pulse_duration : Nat
  one_gap_duration : Nat
  zero_pulse_duration : Nat
  zero_gap_duration : Nat
  trailing_pulse_duration : Nat
  trailing_gap_duration : Nat
deriving DecidableEq

/-- The concrete timing profile built in `__send_command` from the
`Delay` constants. -/
def protocolTiming : TimingProfile :=
  ⟨Delay.HdrMark, Delay.HdrSpace, Delay.BitMark, Delay.OneSpace,
   Delay.BitMark, Delay.ZeroSpace, Delay.RptMark, Delay.RptSpace⟩

/-- A mark/space pair on the IR line: a carrier pulse duration followed
by an idle gap duration. -/
structure Segment where
  pulse : Nat
  space : Nat
deriving DecidableEq

/-- Modelled from the spec: the per-bit emission rule of
`ir_sender.IrSender.send_data` (the `ir_sender` module is not under
`src/`, only its call site is): emit a pulse of the bit-mark duration,
followed by a space whose duration is the one-gap if the bit is 1,
else the zero-gap, with the durations drawn from the timing profile
that `__send_command` builds. -/
def encodeBit (p : TimingProfile) (b : Bool) : Segment :=
  if b then ⟨p.one_pulse_duration, p.one_gap_duration⟩
  else ⟨p.zero_pulse_duration, p.zero_gap_duration⟩

/-- Modelled from the spec: for each byte of the frame the transmitter
emits its eight bits from least-significant to most-significant, each
through `encodeBit`. -/
def encodeByte (p : TimingProfile) (b : Nat) : List Segment :=
  (List.range 8).map (fun i => encodeBit p (b.testBit i))

/-! ## Theorems -/

/-- Shape of every successfully built frame: once `climate2` succeeds,
`__send_command` hands the transmitter this explicit 18-entry list. -/
theorem sendCommandCore_eq (s : Settings) (now : Time) (pm : Nat) (c2 : Nat)
    (h : ClimateMode.climate2 s.climate_mode = some c2) :
    sendCommandCore s now pm = some
      [0x23, 0xCB, 0x26, 0x01, 0x00, pm,
       s.climate_mode ||| s.isee_mode,
       temperatureByte s.temperature,
       c2 ||| s.vanne_horizontal_mode,
       s.fan_mode ||| s.vanne_vertical_mode,
       now.hour * (now.minute / 10),
       timeFieldByte s.end_time,
       timeFieldByte s.start_time,
       timeControlOf s.start_time s.end_time ||| s.area_mode,
       0x00, 0x00, 0x00,
       (0x23 + 0xCB + 0x26 + 0x01 + 0x00 + pm +
        (s.climate_mode ||| s.isee_mode) +
        temperatureByte s.temperature +
        (c2 ||| s.vanne_horizontal_mode) +
        (s.fan_mode ||| s.vanne_vertical_mode) +
        now.hour * (now.minute / 10) +
        timeFieldByte s.end_time +
        timeFieldByte s.start_time +
        (timeControlOf s.start_time s.end_time ||| s.area_mode)) % 256] := by
  simp [sendCommandCore, h, template, Index.Power, Index.ClimateAndISee,
    Index.Temperature, Index.ClimateAndHorizontalVanne, Index.FanAndVerticalVanne,
    Index.Clock, Index.EndTime, Index.StartTime, Index.TimeControlAndArea,
    Index.CRC, Constants.MaxMask, List.set]
  ring_nf

/-- Every branch of the `time_control` selection returns a literal zero
(all four `TimeControlMode` constants are `0b00000000`). -/
theorem timeControlOf_eq_zero (start_time end_time : Option Time) :
    timeControlOf start_time end_time = 0 := by
  unfold timeControlOf
  split_ifs <;> rfl

/-- C1: every frame `__send_command` builds is exactly 18 bytes long,
and its last byte (index 17, the CRC) equals the sum of the first 17
bytes (indices 0..16) modulo 256. -/
theorem C1_frame_length_and_crc (s : Settings) (now : Time) (pm : Nat)
    (f : List Nat) (h : sendCommandCore s now pm = some f) :
    f.length = 18 ∧ f.get? 17 = some ((f.take 17).sum % 256) := by
  rcases hc : ClimateMode.climate2 s.climate_mode with _ | c2
  · simp [sendCommandCore, hc] at h
  · rw [sendCommandCore_eq s now pm c2 hc] at h
    injection h with h
    subst h
    refine ⟨rfl, ?_⟩
    simp [List.take, List.sum]
    ring_nf

/-- C1 witness: the default settings at time 00:00 with power on. -/
theorem C1_witness :
    ([35, 203, 38, 1, 0, 32, 32, 5, 32, 192, 0, 0, 0, 0, 0, 0, 0, 58] : List Nat).length = 18 ∧
    ([35, 203, 38, 1, 0, 32, 32, 5, 32, 192, 0, 0, 0, 0, 0, 0, 0, 58] : List Nat).get? 17 =
      some ((([35, 203, 38, 1, 0, 32, 32, 5, 32, 192, 0, 0, 0, 0, 0, 0, 0, 58] : List Nat).take 17).sum % 256) :=
  C1_frame_length_and_crc sendCommandDefaults ⟨0, 0⟩ PowerMode.PowerOn _ rfl

/-- C2: the Temperature byte (index 7) equals
`clamp(temperature, 16, 31) - 16`; temperature 10 yields the same byte
as 16, temperature 40 the same byte as 31, and out-of-range
temperatures are silently saturated, never rejected (changing the
temperature to any integer `t` never makes frame construction fail). -/
theorem C2_temperature_clamped (s : Settings) (now : Time) (pm : Nat)
    (f : List Nat) (t : Int) (h : sendCommandCore s now pm = some f) :
    f.get? 7 = some (temperatureByte s.temperature) ∧
    (temperatureByte s.temperature : Int) = max 16 (min 31 s.temperature) - 16 ∧
    temperatureByte 10 = temperatureByte 16 ∧
    temperatureByte 40 = temperatureByte 31 ∧
    (sendCommandCore
      ⟨s.climate_mode, t, s.fan_mode, s.vanne_vertical_mode,
       s.vanne_horizontal_mode, s.isee_mode, s.area_mode,
       s.start_time, s.end_time⟩ now pm).isSome = true := by
  rcases hc : ClimateMode.climate2 s.climate_mode with _ | c2
  · simp [sendCommandCore, hc] at h
  · rw [sendCommandCore_eq s now pm c2 hc] at h
    injection h with h
    subst h
    refine ⟨rfl, ?_, by decide, by decide, ?_⟩
    · have h16 : (16 : Int) ≤ max 16 (min 31 s.temperature) := le_max_left _ _
      rw [temperatureByte]
      simp only [Constants.MinTemp, Constants.MaxTemp]
      push_cast
      rw [Int.toNat_of_nonneg (by omega)]
    · simp [sendCommandCore, hc]

/-- C2 witness: default settings at 00:00; the out-of-range temperature
999 is still accepted. -/
theorem C2_witness :
    ([35, 203, 38, 1, 0, 32, 32, 5, 32, 192, 0, 0, 0, 0, 0, 0, 0, 58] : List Nat).get? 7 =
      some (temperatureByte 21) ∧
    (temperatureByte 21 : Int) = max 16 (min 31 21) - 16 ∧
    temperatureByte 10 = temperatureByte 16 ∧
    temperatureByte 40 = temperatureByte 31 ∧
    (sendCommandCore
      ⟨ClimateMode.Auto, 999, FanMode.Auto, VanneVerticalMode.Auto,
       VanneHorizontalMode.NotAvailable, ISeeMode.NotAvailable, AreaMode.NotAvailable,
       none, none⟩ ⟨0, 0⟩ PowerMode.PowerOn).isSome = true :=
  C2_temperature_clamped sendCommandDefaults ⟨0, 0⟩ PowerMode.PowerOn _ 999 rfl

/-- C3: evaluation of `climate2` at each of the four climate modes.
The binary literals of the private secondary table are bit-identical
to the primary codes (8, 24, 16, 32), even though the comments beside
them in the source document the distinct values 0x00, 0x06, 0x02,
0x00: the secondary lookup never returns a bit pattern different from
the primary code, contradicting both the claim and the comments. -/
theorem C3_climate2_equals_primary :
    ClimateMode.climate2 ClimateMode.Hot = some ClimateMode.Hot ∧
    ClimateMode.climate2 ClimateMode.Cold = some ClimateMode.Cold ∧
    ClimateMode.climate2 ClimateMode.Dry = some ClimateMode.Dry ∧
    ClimateMode.climate2 ClimateMode.Auto = some ClimateMode.Auto := by
  decide

/-- C4: the Clock byte (index 10) equals
`current_hour * (current_minute // 10)` (hence 0 whenever the minute is
below 10); the EndTime byte (index 11) and StartTime byte (index 12)
are 0 when the corresponding optional time is absent and otherwise
`hour * (minute // 10)`. -/
theorem C4_clock_and_time_bytes (s : Settings) (now : Time) (pm : Nat)
    (f : List Nat) (tt : Time) (h : sendCommandCore s now pm = some f) :
    f.get? 10 = some (now.hour * (now.minute / 10)) ∧
    (now.minute < 10 → f.get? 10 = some 0) ∧
    f.get? 11 = some (timeFieldByte s.end_time) ∧
    f.get? 12 = some (timeFieldByte s.start_time) ∧
    timeFieldByte none = 0 ∧
    timeFieldByte (some tt) = tt.hour * (tt.minute / 10) := by
  rcases hc : ClimateMode.climate2 s.climate_mode with _ | c2
  · simp [sendCommandCore, hc] at h
  · rw [sendCommandCore_eq s now pm c2 hc] at h
    injection h with h
    subst h
    refine ⟨rfl, ?_, rfl, rfl, rfl, rfl⟩
    intro hm
    have hz : now.minute / 10 = 0 := Nat.div_eq_of_lt hm
    simp [hz]

/-- C4 witness: a command with both schedule times at current time
13:07 (minute below 10, so the Clock byte degenerates to 0). -/
theorem C4_witness :
    ([35, 203, 38, 1, 0, 32, 88, 2, 120, 67, 0, 0, 24, 0, 0, 0, 0, 98] : List Nat).get? 10 =
      some (13 * (7 / 10)) ∧
    (7 < 10 →
      ([35, 203, 38, 1, 0, 32, 88, 2, 120, 67, 0, 0, 24, 0, 0, 0, 0, 98] : List Nat).get? 10 =
        some 0) ∧
    ([35, 203, 38, 1, 0, 32, 88, 2, 120, 67, 0, 0, 24, 0, 0, 0, 0, 98] : List Nat).get? 11 =
      some (timeFieldByte (some ⟨22, 5⟩)) ∧
    ([35, 203, 38, 1, 0, 32, 88, 2, 120, 67, 0, 0, 24, 0, 0, 0, 0, 98] : List Nat).get? 12 =
      some (timeFieldByte (some ⟨6, 45⟩)) ∧
    timeFieldByte none = 0 ∧
    timeFieldByte (some ⟨9, 59⟩) = 9 * (59 / 10) :=
  C4_clock_and_time_bytes
    ⟨ClimateMode.Cold, 18, FanMode.Speed3, VanneVerticalMode.Auto,
     VanneHorizontalMode.Swing, ISeeMode.ISeeOn, AreaMode.Full,
     some ⟨6, 45⟩, some ⟨22, 5⟩⟩
    ⟨13, 7⟩ PowerMode.PowerOn _ ⟨9, 59⟩ rfl

/-- C5: the presence or absence of the two optional times selects
exactly one of the four schedule-mode codes (both present means
`ControlBoth`, only an end time `ControlEnd`, only a start time
`ControlStart`, neither `NoTimeControl`); byte 13 is that code
bitwise-ORed with the area-mode code, and the two codes share no bit
positions, so the OR loses no bits (it coincides with addition). -/
theorem C5_schedule_mode_selection (s : Settings) (now : Time) (pm : Nat)
    (f : List Nat) (h : sendCommandCore s now pm = some f)
    (ha : s.area_mode ∈ [AreaMode.NotAvailable, AreaMode.NotSet, AreaMode.Left,
      AreaMode.Right, AreaMode.Full]) :
    f.get? 13 = some (timeControlOf s.start_time s.end_time ||| s.area_mode) ∧
    (s.start_time.isSome = true → s.end_time.isSome = true →
      timeControlOf s.start_time s.end_time = TimeControlMode.ControlBoth) ∧
    (s.start_time = none → s.end_time.isSome = true →
      timeControlOf s.start_time s.end_time = TimeControlMode.ControlEnd) ∧
    (s.start_time.isSome = true → s.end_time = none →
      timeControlOf s.start_time s.end_time = TimeControlMode.ControlStart) ∧
    (s.start_time = none → s.end_time = none →
      timeControlOf s.start_time s.end_time = TimeControlMode.NoTimeControl) ∧
    timeControlOf s.start_time s.end_time &&& s.area_mode = 0 ∧
    timeControlOf s.start_time s.end_time ||| s.area_mode =
      timeControlOf s.start_time s.end_time + s.area_mode := by
  rcases hc : ClimateMode.climate2 s.climate_mode with _ | c2
  · simp [sendCommandCore, hc] at h
  · rw [sendCommandCore_eq s now pm c2 hc] at h
    injection h with h
    subst h
    refine ⟨rfl, fun _ _ => by rw [timeControlOf_eq_zero]; rfl,
      fun _ _ => by rw [timeControlOf_eq_zero]; rfl,
      fun _ _ => by rw [timeControlOf_eq_zero]; rfl,
      fun _ _ => by rw [timeControlOf_eq_zero]; rfl, ?_, ?_⟩
    · rw [timeControlOf_eq_zero]
      exact Nat.zero_and _
    · rw [timeControlOf_eq_zero]
      simp

/-- C5 witness: both schedule times present, area mode `NotSet`. -/
theorem C5_witness :
    ([35, 203, 38, 1, 0, 32, 8, 9, 72, 121, 0, 0, 24, 0, 0, 0, 0, 31] : List Nat).get? 13 =
      some (timeControlOf (some ⟨8, 30⟩) (some ⟨20, 0⟩) ||| AreaMode.NotSet) ∧
    ((some (⟨8, 30⟩ : Time)).isSome = true → (some (⟨20, 0⟩ : Time)).isSome = true →
      timeControlOf (some ⟨8, 30⟩) (some ⟨20, 0⟩) = TimeControlMode.ControlBoth) ∧
    ((some (⟨8, 30⟩ : Time)) = none → (some (⟨20, 0⟩ : Time)).isSome = true →
      timeControlOf (some ⟨8, 30⟩) (some ⟨20, 0⟩) = TimeControlMode.ControlEnd) ∧
    ((some (⟨8, 30⟩ : Time)).isSome = true → (some (⟨20, 0⟩ : Time)) = none →
      timeControlOf (some ⟨8, 30⟩) (some ⟨20, 0⟩) = TimeControlMode.ControlStart) ∧
    ((some (⟨8, 30⟩ : Time)) = none → (some (⟨20, 0⟩ : Time)) = none →
      timeControlOf (some ⟨8, 30⟩) (some ⟨20, 0⟩) = TimeControlMode.NoTimeControl) ∧
    timeControlOf (some ⟨8, 30⟩) (some ⟨20, 0⟩) &&& AreaMode.NotSet = 0 ∧
    timeControlOf (some ⟨8, 30⟩) (some ⟨20, 0⟩) ||| AreaMode.NotSet =
      timeControlOf (some ⟨8, 30⟩) (some ⟨20, 0⟩) + AreaMode.NotSet :=
  C5_schedule_mode_selection
    ⟨ClimateMode.Hot, 25, FanMode.Speed1, VanneVerticalMode.Swing,
     VanneHorizontalMode.Left, ISeeMode.ISeeOff, AreaMode.NotSet,
     some ⟨8, 30⟩, some ⟨20, 0⟩⟩
    ⟨12, 0⟩ PowerMode.PowerOn _ rfl (by decide)

/-- C6 counterexample: at the fixed time 00:00, the frame `power_off`
hands to the transmitter differs from the frame built with the
documented `send_command` defaults and the off code: `power_off`
passes `VanneHorizontalMode.Swing`, so byte 8 is 104, whereas the
default horizontal vane (`NotAvailable`) would give 32. -/
theorem C6_counterexample :
    (power_off ⟨0, 0⟩).bind (fun f => f.get? 8) = some 104 ∧
    (sendCommandCore sendCommandDefaults ⟨0, 0⟩ PowerMode.PowerOff).bind
      (fun f => f.get? 8) = some 32 ∧
    power_off ⟨0, 0⟩ ≠ sendCommandCore sendCommandDefaults ⟨0, 0⟩ PowerMode.PowerOff := by
  decide

/-- C6 (amended): `power_off` always sets the Power byte (index 5) to
the off code 0x00, and fills the remaining setting positions with the
`send_command` auto-mode defaults except the horizontal vane, which it
sets to `Swing` rather than `NotAvailable`. -/
theorem C6_power_off_frame (now : Time) :
    (power_off now).bind (fun f => f.get? 5) = some PowerMode.PowerOff ∧
    power_off now = sendCommandCore
      ⟨ClimateMode.Auto, 21, FanMode.Auto, VanneVerticalMode.Auto,
       VanneHorizontalMode.Swing, ISeeMode.NotAvailable, AreaMode.NotAvailable,
       none, none⟩ now PowerMode.PowerOff := by
  refine ⟨?_, rfl⟩
  rw [power_off,
    sendCommandCore_eq powerOffSettings now PowerMode.PowerOff ClimateMode.Auto2 (by decide)]
  rfl

/-- C7 counterexample: under the timing profile `__send_command`
builds, the pulse sequence for the byte 0b00000001 does not begin with
seven (BitMark, ZeroSpace) pairs: its very first segment is
(BitMark, OneSpace), because the set low bit is emitted first. -/
theorem C7_counterexample :
    (encodeByte protocolTiming 0b00000001).take 7 ≠
      List.replicate 7 (Segment.mk Delay.BitMark Delay.ZeroSpace) := by
  decide

/-- C7 (amended): least-significant-bit-first emission means the pulse
sequence for the byte 0b00000001 is one (BitMark, OneSpace) pair
followed by seven (BitMark, ZeroSpace) pairs. -/
theorem C7_byte_one_sequence :
    encodeByte protocolTiming 0b00000001 =
      Segment.mk Delay.BitMark Delay.OneSpace ::
        List.replicate 7 (Segment.mk Delay.BitMark Delay.ZeroSpace) := by
  decide

/-- C8: a climate mode outside the four enumeration codes makes
`climate2` return `None`, so `__send_command` raises on
`None | vanne_horizontal_mode` before any frame reaches the
transmitter (modelled as `none`), while each of the four valid codes
always yields a frame. -/
theorem C8_invalid_climate_rejected (s : Settings) (now : Time) (pm : Nat) :
    (s.climate_mode ∉ [ClimateMode.Hot, ClimateMode.Cold, ClimateMode.Dry,
        ClimateMode.Auto] →
      sendCommandCore s now pm = none) ∧
    (s.climate_mode ∈ [ClimateMode.Hot, ClimateMode.Cold, ClimateMode.Dry,
        ClimateMode.Auto] →
      (sendCommandCore s now pm).isSome = true) := by
  constructor
  · intro hm
    simp only [List.mem_cons, List.not_mem_nil, or_false, not_or] at hm
    obtain ⟨h1, h2, h3, h4⟩ := hm
    simp [sendCommandCore, ClimateMode.climate2, h1, h2, h3, h4]
  · intro hm
    have hex : ∃ c2, ClimateMode.climate2 s.climate_mode = some c2 := by
      simp only [List.mem_cons, List.not_mem_nil, or_false] at hm
      rcases hm with h | h | h | h <;>
        exact ⟨_, by rw [h]; rfl⟩
    obtain ⟨c2, hc2⟩ := hex
    simp [sendCommandCore, hc2]

/-- C8 witness: climate code 0 (unmapped) is rejected; the valid code
`Hot` is accepted. -/
theorem C8_witness :
    sendCommandCore
      ⟨0, 21, FanMode.Auto, VanneVerticalMode.Auto,
       VanneHorizontalMode.NotAvailable, ISeeMode.NotAvailable, AreaMode.NotAvailable,
       none, none⟩ ⟨0, 0⟩ PowerMode.PowerOn = none ∧
    (sendCommandCore
      ⟨ClimateMode.Hot, 21, FanMode.Auto, VanneVerticalMode.Auto,
       VanneHorizontalMode.NotAvailable, ISeeMode.NotAvailable, AreaMode.NotAvailable,
       none, none⟩ ⟨0, 0⟩ PowerMode.PowerOn).isSome = true :=
  ⟨(C8_invalid_climate_rejected _ ⟨0, 0⟩ PowerMode.PowerOn).1 (by decide),
   (C8_invalid_climate_rejected _ ⟨0, 0⟩ PowerMode.PowerOn).2 (by decide)⟩

/-- C9: frame construction is deterministic. The template list is a
local literal rebuilt inside every call (no state of the embedding
survives a call), so two invocations with equal settings, equal
time-of-day and equal power mode hand the transmitter byte-identical
frames. -/
theorem C9_two_runs_identical (s₁ s₂ : Settings) (now₁ now₂ : Time)
    (pm₁ pm₂ : Nat) (hs : s₁ = s₂) (hn : now₁ = now₂) (hp : pm₁ = pm₂) :
    sendCommandCore s₁ now₁ pm₁ = sendCommandCore s₂ now₂ pm₂ := by
  subst hs
  subst hn
  subst hp
  rfl

/-- C9 witness: two runs on the default settings at 12:34. -/
theorem C9_witness :
    sendCommandCore sendCommandDefaults ⟨12, 34⟩ PowerMode.PowerOn =
      sendCommandCore sendCommandDefaults ⟨12, 34⟩ PowerMode.PowerOn :=
  C9_two_runs_identical sendCommandDefaults sendCommandDefaults ⟨12, 34⟩ ⟨12, 34⟩
    PowerMode.PowerOn PowerMode.PowerOn rfl rfl rfl

/-- C10: because every `TimeControlMode` constant and every `AreaMode`
constant is literally `0b00000000` (despite the distinct hex values in
their comments), byte 13 of the built frame is 0 for every combination
of present or absent start and end times and every area mode of the
enumeration. -/
theorem C10_byte13_always_zero (s : Settings) (now : Time) (pm : Nat)
    (f : List Nat) (h : sendCommandCore s now pm = some f)
    (ha : s.area_mode ∈ [AreaMode.NotAvailable, AreaMode.NotSet, AreaMode.Left,
      AreaMode.Right, AreaMode.Full]) :
    f.get? 13 = some 0 ∧
    TimeControlMode.NoTimeControl = 0 ∧ TimeControlMode.ControlStart = 0 ∧
    TimeControlMode.ControlEnd = 0 ∧ TimeControlMode.ControlBoth = 0 ∧
    AreaMode.NotAvailable = 0 ∧ AreaMode.NotSet = 0 ∧
    AreaMode.Left = 0 ∧ AreaMode.Right = 0 ∧ AreaMode.Full = 0 := by
  have ha0 : s.area_mode = 0 := by
    simpa [AreaMode.NotAvailable, AreaMode.NotSet, AreaMode.Left,
      AreaMode.Right, AreaMode.Full] using ha
  rcases hc : ClimateMode.climate2 s.climate_mode with _ | c2
  · simp [sendCommandCore, hc] at h
  · rw [sendCommandCore_eq s now pm c2 hc] at h
    injection h with h
    subst h
    refine ⟨?_, rfl, rfl, rfl, rfl, rfl, rfl, rfl, rfl, rfl⟩
    rw [timeControlOf_eq_zero, ha0]
    rfl

/-- C10 witness: only a start time present, area mode `Left`. -/
theorem C10_witness :
    ([35, 203, 38, 1, 0, 32, 16, 5, 112, 85, 115, 0, 57, 0, 0, 0, 0, 187] : List Nat).get? 13 =
      some 0 ∧
    TimeControlMode.NoTimeControl = 0 ∧ TimeControlMode.ControlStart = 0 ∧
    TimeControlMode.ControlEnd = 0 ∧ TimeControlMode.ControlBoth = 0 ∧
    AreaMode.NotAvailable = 0 ∧ AreaMode.NotSet = 0 ∧
    AreaMode.Left = 0 ∧ AreaMode.Right = 0 ∧ AreaMode.Full = 0 :=
  C10_byte13_always_zero
    ⟨ClimateMode.Dry, 21, FanMode.Silent, VanneVerticalMode.WvH2,
     VanneHorizontalMode.RightEnd, ISeeMode.NotAvailable, AreaMode.Left,
     some ⟨19, 30⟩, none⟩
    ⟨23, 59⟩ PowerMode.PowerOn _ rfl (by decide)

end HVACIR
